import Mathlib

set_option maxRecDepth 4000

/-!
Verification of the marcut bootstrap launchers.

Two C programs are embedded shallowly:
* variant A, `src/build-scripts/resources/python_embed_stub.c` — the
  build-integrated launcher that assembles a `PyConfig` and initializes the
  embedded runtime through the configuration API;
* variant B, `src/tests/scripts/python_executable_stub.c` — the test-harness
  launcher that dynamically loads the runtime's shared library and calls the
  legacy `Py_Main` entry point.

Platform calls (`_NSGetExecutablePath`, `realpath`, `access`, `dlopen`,
`dlsym`, `Py_Main`, the `PyStatus` results of the configuration calls) are
abstracted into an environment record; each program becomes a total function
from that environment to a result consisting of an event trace (stderr
writes, environment-variable exports, library handle operations, runtime
calls) and a process outcome.
-/

/-- Split a list around the LAST occurrence of `c`: `splitLast c l = some (b, a)`
when `l = b ++ c :: a` with `c ∉ a`; `none` when `c ∉ l`.  This models C's
`strrchr`: `b` is the text before the final occurrence, `a` the text after. -/
def splitLast (c : Char) : List Char → Option (List Char × List Char)
  | [] => none
  | x :: xs =>
    match splitLast c xs with
    | some (b, a) => some (x :: b, a)
    | none => if x = c then some ([], xs) else none

theorem splitLast_eq_none_of_not_mem (c : Char) :
    ∀ {l : List Char}, c ∉ l → splitLast c l = none := by
  intro l
  induction l with
  | nil => intro _; rfl
  | cons x xs ih =>
    intro h
    simp only [List.mem_cons, not_or] at h
    simp [splitLast, ih h.2, Ne.symm h.1]

theorem splitLast_isSome_of_mem (c : Char) :
    ∀ {l : List Char}, c ∈ l → ∃ b a, splitLast c l = some (b, a) := by
  intro l
  induction l with
  | nil => intro h; exact absurd h (List.not_mem_nil c)
  | cons x xs ih =>
    intro h
    rcases hs : splitLast c xs with _ | ⟨b, a⟩
    · have hxs : c ∉ xs := by
        intro hmem
        rcases ih hmem with ⟨b, a, hba⟩
        rw [hba] at hs
        exact Option.noConfusion hs
      have hx : x = c := by
        rcases List.mem_cons.mp h with h1 | h2
        · exact h1.symm
        · exact absurd h2 hxs
      exact ⟨[], xs, by simp [splitLast, hs, hx]⟩
    · exact ⟨x :: b, a, by simp [splitLast, hs]⟩

theorem splitLast_append_of_mem (c : Char) (xs ys : List Char) (h : c ∈ ys) :
    splitLast c (xs ++ ys) =
      (splitLast c ys).map (fun p => (xs ++ p.1, p.2)) := by
  induction xs with
  | nil => simp
  | cons x xs ih =>
    rcases splitLast_isSome_of_mem c h with ⟨b, a, hba⟩
    simp [List.cons_append, splitLast, List.append_eq, ih, hba]

theorem string_mk_append (l₁ l₂ : List Char) :
    String.mk (l₁ ++ l₂) = String.mk l₁ ++ String.mk l₂ := rfl

theorem string_data_append (a b : String) : (a ++ b).data = a.data ++ b.data := by
  cases a; cases b; rfl

/-- Truncation at the last separator, `*strrchr(s, '/') = '\0'` in C: cut `s` at its last `/`; `s` itself when it
has no `/`.  Used by variant B for both the executable directory and the
runtime home (`if (last_slash) { *last_slash = '\0'; }`). -/
def stripAfterLastSlash (s : String) : String :=
  match splitLast '/' s.data with
  | some (b, _) => String.mk b
  | none => s

/- ## Variant B: the dynamic-load launcher (src/tests/scripts/python_executable_stub.c) -/

/-- Observable actions of the dynamic-load launcher, in program order. -/
inductive EventB where
  | stderrMsg (msg : String)
  | setenvCall (key value : String)
  | dlopenCall (path : String)
  | dlcloseCall
  | pyMainCall (args : List String)
deriving DecidableEq

/-- Abstracted platform behaviour for one invocation of variant B:
the result of `realpath(argv[0], NULL)`, whether `dlopen` and `dlsym`
succeed, the diagnostics `dlerror()` would return at each failure point,
the value `Py_Main` returns, and the process argument vector. -/
structure EnvB where
  realpathExe : Option String
  dlopenOk : Bool
  dlsymOk : Bool
  dlerrorLoad : String
  dlerrorSym : String
  pyMainResult : Int
  argv : List String

/-- Result of one invocation of variant B: the event trace and the value
returned from `main` (the process exit code). -/
structure ResultB where
  events : List EventB
  exitCode : Int
deriving DecidableEq

/-- The hard-coded development path the source substitutes when the resolved
executable path contains no `/`. -/
def hardcodedFrameworkPath : String :=
  "/Users/mhm/Documents/Hobby/Marcut-2/build/MarcutApp.app/Contents/Frameworks/Python.framework/Versions/3.11/Python"

/-- The fixed relative offset from the executable's directory to the shared
library, as in the source's `snprintf` format string. -/
def frameworkOffset : String := "/../Frameworks/Python.framework/Versions/3.11/Python"

/-- The shared-library path variant B computes from the resolved executable
path: truncate at the last `/` (the C writes `'\0'` over it) and append the
fixed framework offset; the hard-coded development path when the resolved
path has no `/`. -/
def frameworkPathOf (exe_path : String) : String :=
  match splitLast '/' exe_path.data with
  | some (b, _) => String.mk b ++ frameworkOffset
  | none => hardcodedFrameworkPath

/-- Function `main` of `src/tests/scripts/python_executable_stub.c`, straight-line:
resolve `argv[0]`; truncate at the last `/` to get the executable directory
and append the fixed framework offset (hard-coded path when there is no `/`);
derive `PYTHONHOME` by truncating the framework path at its last `/` and
export it; `dlopen` the framework; `dlsym("Py_Main")`; call `Py_Main` with
the full argument vector; `dlclose`; return `Py_Main`'s result. -/
def runStubB (env : EnvB) : ResultB :=
  match env.realpathExe with
  | none => ⟨[EventB.stderrMsg "Could not determine executable path\n"], 1⟩
  | some exe_path =>
    let framework_path := frameworkPathOf exe_path
    let python_home := stripAfterLastSlash framework_path
    let pre := [EventB.setenvCall "PYTHONHOME" python_home,
                EventB.dlopenCall framework_path]
    if !env.dlopenOk then
      ⟨pre ++ [EventB.stderrMsg ("Failed to load Python framework: " ++ env.dlerrorLoad ++ "\n")], 1⟩
    else if !env.dlsymOk then
      ⟨pre ++ [EventB.stderrMsg ("Failed to find Py_Main: " ++ env.dlerrorSym ++ "\n"),
               EventB.dlcloseCall], 1⟩
    else
      ⟨pre ++ [EventB.pyMainCall env.argv, EventB.dlcloseCall], env.pyMainResult⟩

/-- Recognizer for library-acquisition events, for counting acquisitions. -/
def isDlopenEvent : EventB → Bool
  | EventB.dlopenCall _ => true
  | _ => false

/-- Recognizer for library-release events, for counting releases. -/
def isDlcloseEvent : EventB → Bool
  | EventB.dlcloseCall => true
  | _ => false

/- ## Variant A: the embedded-configuration launcher
   (src/build-scripts/resources/python_embed_stub.c) -/

/-- Drop trailing occurrences of `c` from the end of the list. -/
def dropTrailing (c : Char) (l : List Char) : List Char :=
  (l.reverse.dropWhile (fun x => x = c)).reverse

/-- POSIX `dirname(3)`, the semantics of the libgen call the source applies to
the executable path (twice) to reach the bundle's `Contents` directory. -/
def dirnameOf (s : String) : String :=
  let l := dropTrailing '/' s.data
  match splitLast '/' l with
  | none => if s.data ≠ [] && l = ([] : List Char) then "/" else "."
  | some (b, _) =>
    let b' := dropTrailing '/' b
    if b' = ([] : List Char) then "/" else String.mk b'

/-- The version token the source extracts from the resolved runtime home:
`strrchr(python_home, '/')`; when a `/` is found and a nonempty suffix
follows it, that suffix, otherwise the literal `"3.10"`. -/
def extractVersion (python_home : String) : String :=
  match splitLast '/' python_home.data with
  | some (_, a) => if a = ([] : List Char) then "3.10" else String.mk a
  | none => "3.10"

/-- Spec-side reading of "final path segment": the text after the last `/`,
or the whole string when it has none. -/
def finalPathSegment (s : String) : String :=
  match splitLast '/' s.data with
  | some (_, a) => String.mk a
  | none => s

/-- The module search path the source builds with a single `snprintf`, format
`"%s/Resources/python_site:%s/lib/python%s:%s/lib/python%s/lib-dynload"`. -/
def buildSearchPath (contents_dir python_home python_version : String) : String :=
  contents_dir ++ "/Resources/python_site:" ++
    python_home ++ "/lib/python" ++ python_version ++ ":" ++
    python_home ++ "/lib/python" ++ python_version ++ "/lib-dynload"

/-- Spec-side reading of the search-path entries: the bundled site directory,
the runtime standard-library directory, and the lib-dynload directory, as an
ordered list. -/
def searchPathEntries (contents_dir python_home python_version : String) : List String :=
  [contents_dir ++ "/Resources/python_site",
   python_home ++ "/lib/python" ++ python_version,
   python_home ++ "/lib/python" ++ python_version ++ "/lib-dynload"]

/-- Spec-side reading of "path-separator-joined list". -/
def joinWithColon : List String → String
  | [] => ""
  | [x] => x
  | x :: xs => x ++ ":" ++ joinWithColon xs

/-- The runtime configuration record, restricted to the fields the source
touches. -/
structure PyConfig where
  isolated : Int
  use_environment : Int
  user_site_directory : Int
  write_bytecode : Int
  configure_c_stdio : Int
  buffered_stdio : Int
  program_name : Option String
  home : Option String
  pythonpath_env : Option String
  argv : Option (List String)
deriving DecidableEq

/-- Defaults of `PyConfig_InitPythonConfig` for the modelled fields. -/
def initPythonConfig : PyConfig :=
  { isolated := 0, use_environment := 1, user_site_directory := 1,
    write_bytecode := 1, configure_c_stdio := 1, buffered_stdio := 1,
    program_name := none, home := none, pythonpath_env := none, argv := none }

/-- Observable actions of variant A, in program order.  `initFromConfig`
records the configuration value handed to `Py_InitializeFromConfig`. -/
inductive Event where
  | stderrMsg (msg : String)
  | configInit
  | configClear
  | exitStatusException
  | initFromConfig (cfg : PyConfig)
  | runMain
deriving DecidableEq

/-- How the process ends: a value returned from `main`, or termination inside
`Py_ExitStatusException`. -/
inductive Outcome where
  | ret (code : Int)
  | statusExit
deriving DecidableEq

/-- Result of one invocation of variant A. -/
structure ResultA where
  events : List Event
  outcome : Outcome
deriving DecidableEq

/-- Abstracted platform behaviour for one invocation of variant A:
the `_NSGetExecutablePath` result, the filesystem's `realpath` answers, the
`access(-, R_OK)` answers, whether each `PyStatus`-returning call reports an
exception (`stProgram`, `stHome`, `stPath` for the three
`PyConfig_SetBytesString` calls, `stArgv` for `PyConfig_SetBytesArgv`,
`stInit` for `Py_InitializeFromConfig`), the `Py_RunMain` result, and the
process argument vector. -/
structure EnvA where
  execPath : Option String
  realpathOf : String → Option String
  accessReadOk : String → Bool
  stProgram : Bool
  stHome : Bool
  stPath : Bool
  stArgv : Bool
  stInit : Bool
  runMainResult : Int
  argv : List String

/-- Events emitted by `handle_status` when the status is an exception:
clear the configuration when one was passed, then terminate through
`Py_ExitStatusException`.  When the status is not an exception the C
function returns without acting (no events). -/
def handle_status (hasConfig : Bool) : List Event :=
  (if hasConfig then [Event.configClear] else []) ++ [Event.exitStatusException]

/-- The candidate runtime-home symlink the source builds from the executable
path: `dirname(dirname(exe)) ++ "/Frameworks/Python.framework/Versions/Current"`. -/
def homeLinkOf (executable_path : String) : String :=
  dirnameOf (dirnameOf executable_path) ++ "/Frameworks/Python.framework/Versions/Current"

/-- The bundled site directory the source probes with `access(-, R_OK)`:
`dirname(dirname(exe)) ++ "/Resources/python_site"`. -/
def sitePathOf (executable_path : String) : String :=
  dirnameOf (dirnameOf executable_path) ++ "/Resources/python_site"

/-- Function `main` of `src/build-scripts/resources/python_embed_stub.c`, straight-line:
resolve the executable path; take `dirname` twice to reach `Contents`;
resolve the `Versions/Current` symlink with `realpath`; extract the version
token; build the program name `<home>/bin/python3`; require the bundled
`python_site` to be readable; build the search path; initialize a fresh
configuration, clear the environment/user-site/bytecode flags, set program
name, home and path (each status routed through `handle_status` with the
configuration), set the isolation and stdio flags, copy the argument vector,
initialize the runtime, clear the configuration, route the final status
through `handle_status` with `NULL`, and run `Py_RunMain`. -/
def runStubA (env : EnvA) : ResultA :=
  match env.execPath with
  | none => ⟨[Event.stderrMsg "python3_embed: Failed to get executable path\n"], Outcome.ret 1⟩
  | some executable_path =>
    match env.realpathOf (homeLinkOf executable_path) with
    | none =>
      ⟨[Event.stderrMsg ("python3_embed: Unable to resolve Python home at " ++
          homeLinkOf executable_path ++ "\n")], Outcome.ret 1⟩
    | some python_home =>
      if !env.accessReadOk (sitePathOf executable_path) then
        ⟨[Event.stderrMsg ("python3_embed: python_site not found at " ++
            sitePathOf executable_path ++ "\n")], Outcome.ret 1⟩
      else
        let config0 : PyConfig :=
          { initPythonConfig with
              use_environment := 0, user_site_directory := 0, write_bytecode := 0 }
        if env.stProgram then ⟨Event.configInit :: handle_status true, Outcome.statusExit⟩ else
        let config1 := { config0 with program_name := some (python_home ++ "/bin/python3") }
        if env.stHome then ⟨Event.configInit :: handle_status true, Outcome.statusExit⟩ else
        let config2 := { config1 with home := some python_home }
        if env.stPath then ⟨Event.configInit :: handle_status true, Outcome.statusExit⟩ else
        let config3 :=
          { config2 with
              pythonpath_env := some (buildSearchPath
                (dirnameOf (dirnameOf executable_path)) python_home
                (extractVersion python_home)) }
        let config4 :=
          { config3 with
              isolated := 1, use_environment := 0,
              configure_c_stdio := 0, buffered_stdio := 0 }
        if env.stArgv then ⟨Event.configInit :: handle_status true, Outcome.statusExit⟩ else
        let config5 := { config4 with argv := some env.argv }
        if env.stInit then
          ⟨[Event.configInit, Event.initFromConfig config5, Event.configClear] ++
              handle_status false, Outcome.statusExit⟩
        else
          ⟨[Event.configInit, Event.initFromConfig config5, Event.configClear, Event.runMain],
            Outcome.ret env.runMainResult⟩

/- ## Helper lemmas about variant B's path computations -/

theorem stripAfterLastSlash_mk_append_offset (b : List Char) :
    stripAfterLastSlash (String.mk b ++ frameworkOffset) =
      String.mk b ++ "/../Frameworks/Python.framework/Versions/3.11" := by
  have hmem : '/' ∈ frameworkOffset.data := by decide
  have hsplit : splitLast '/' frameworkOffset.data =
      some (("/../Frameworks/Python.framework/Versions/3.11" : String).data,
            ("Python" : String).data) := by decide
  unfold stripAfterLastSlash
  rw [string_data_append,
    splitLast_append_of_mem '/' (String.mk b).data frameworkOffset.data hmem, hsplit]
  simp only [Option.map]
  rw [string_mk_append]

/- ## Concrete environments used by the witnesses -/

/-- A well-formed variant-B invocation: the executable path resolves, the
library loads, the symbol resolves, and `Py_Main` returns 7. -/
def envB_ok : EnvB :=
  { realpathExe := some "/Apps/MarcutApp.app/Contents/Resources/python3",
    dlopenOk := true, dlsymOk := true, dlerrorLoad := "", dlerrorSym := "",
    pyMainResult := 7, argv := ["python3", "-V"] }

/-- A variant-B invocation whose `realpath(argv[0], NULL)` fails. -/
def envB_noResolve : EnvB :=
  { realpathExe := none, dlopenOk := true, dlsymOk := true,
    dlerrorLoad := "", dlerrorSym := "", pyMainResult := 0, argv := [] }

/- ## Claim theorems for variant B -/

/-- C1 counterexample: at a concrete invocation whose executable path cannot
be resolved, variant B does NOT substitute the hard-coded development path —
it writes a diagnostic and exits with code 1, and the hard-coded path is
never loaded.  This refutes the claim that the substitution happens "for
every invocation in which the executable's own path cannot be resolved". -/
theorem stubB_unresolved_path_fails :
    (runStubB envB_noResolve).exitCode = 1 ∧
    (runStubB envB_noResolve).events =
      [EventB.stderrMsg "Could not determine executable path\n"] ∧
    EventB.dlopenCall hardcodedFrameworkPath ∉ (runStubB envB_noResolve).events := by
  refine ⟨rfl, rfl, ?_⟩
  decide

/-- Appending the fixed framework offset to any directory never produces the
hard-coded development path: the offset makes the result end in the 52
characters `/../Frameworks/Python.framework/Versions/3.11/Python`, while the
hard-coded path ends in `nts/Frameworks/Python.framework/Versions/3.11/Python`. -/
theorem mk_append_offset_ne_hardcoded (b : List Char) :
    String.mk b ++ frameworkOffset ≠ hardcodedFrameworkPath := by
  intro h
  have hd : (String.mk b).data ++ frameworkOffset.data = hardcodedFrameworkPath.data := by
    have hdd := congrArg String.data h
    rwa [string_data_append] at hdd
  have hsplit : hardcodedFrameworkPath.data =
      ("/Users/mhm/Documents/Hobby/Marcut-2/build/MarcutApp.app/Conte" : String).data ++
        ("nts/Frameworks/Python.framework/Versions/3.11/Python" : String).data := by decide
  have hlen : frameworkOffset.data.length =
      ("nts/Frameworks/Python.framework/Versions/3.11/Python" : String).data.length := by
    decide
  have heq := (List.append_inj' (hd.trans hsplit) hlen).2
  exact absurd heq (by decide)

/-- A variant-B invocation whose executable path resolves to a string with no
path separator, the only situation in which the source reaches its hard-coded
fallback branch. -/
def envB_noSlash : EnvB :=
  { realpathExe := some "python3", dlopenOk := true, dlsymOk := true,
    dlerrorLoad := "", dlerrorSym := "", pyMainResult := 0, argv := ["python3"] }

/-- C1 (amended): when the executable's own path cannot be resolved, variant B
reports the failure on standard error and exits with code 1; the hard-coded
absolute development path is substituted as the shared-library path only when
the resolved path contains no path separator — when a separator is present,
the computed and loaded library path is the executable's directory joined
with the fixed offset, it differs from the hard-coded path, and it is the
only path the launcher ever loads. -/
theorem stubB_fallback_condition (env : EnvB) :
    (env.realpathExe = none →
      runStubB env =
        ⟨[EventB.stderrMsg "Could not determine executable path\n"], 1⟩) ∧
    (∀ p, env.realpathExe = some p → splitLast '/' p.data = none →
      ∃ rest, (runStubB env).events =
        EventB.setenvCall "PYTHONHOME" (stripAfterLastSlash hardcodedFrameworkPath) ::
          EventB.dlopenCall hardcodedFrameworkPath :: rest) ∧
    (∀ p b a, env.realpathExe = some p → splitLast '/' p.data = some (b, a) →
      frameworkPathOf p = String.mk b ++ frameworkOffset ∧
      frameworkPathOf p ≠ hardcodedFrameworkPath ∧
      ∀ q, EventB.dlopenCall q ∈ (runStubB env).events → q = frameworkPathOf p) := by
  refine ⟨?_, ?_, ?_⟩
  · intro h
    simp [runStubB, h]
  · intro p hp hnone
    simp only [runStubB, frameworkPathOf, hp, hnone]
    cases hload : env.dlopenOk <;> cases hsym : env.dlsymOk <;>
      exact ⟨_, rfl⟩
  · intro p b a hp hsp
    have hfp : frameworkPathOf p = String.mk b ++ frameworkOffset := by
      simp [frameworkPathOf, hsp]
    refine ⟨hfp, hfp ▸ mk_append_offset_ne_hardcoded b, ?_⟩
    intro q hq
    simp only [runStubB, hp] at hq
    cases hload : env.dlopenOk <;> cases hsym : env.dlsymOk <;>
      simp [hload, hsym] at hq <;> exact hq

/-- C1 witness: the amended behaviour at concrete invocations — the failing
resolve exits with code 1, the separator-free resolve substitutes and loads
the hard-coded path, and a separator-carrying resolve loads exactly the
offset-derived path, which differs from the hard-coded one. -/
theorem stubB_fallback_condition_witness :
    (runStubB envB_noResolve =
      ⟨[EventB.stderrMsg "Could not determine executable path\n"], 1⟩) ∧
    (∃ rest, (runStubB envB_noSlash).events =
      EventB.setenvCall "PYTHONHOME" (stripAfterLastSlash hardcodedFrameworkPath) ::
        EventB.dlopenCall hardcodedFrameworkPath :: rest) ∧
    (frameworkPathOf "/Apps/MarcutApp.app/Contents/Resources/python3" =
        String.mk ("/Apps/MarcutApp.app/Contents/Resources" : String).data ++ frameworkOffset ∧
      frameworkPathOf "/Apps/MarcutApp.app/Contents/Resources/python3" ≠ hardcodedFrameworkPath ∧
      ∀ q, EventB.dlopenCall q ∈ (runStubB envB_ok).events →
        q = frameworkPathOf "/Apps/MarcutApp.app/Contents/Resources/python3") :=
  ⟨(stubB_fallback_condition envB_noResolve).1 rfl,
   (stubB_fallback_condition envB_noSlash).2.1 "python3" rfl (by decide),
   (stubB_fallback_condition envB_ok).2.2 "/Apps/MarcutApp.app/Contents/Resources/python3"
     ("/Apps/MarcutApp.app/Contents/Resources" : String).data
     ("python3" : String).data rfl (by decide)⟩


/-- C2: after a successful load, the library handle is acquired and released
exactly once on every exit path: a failed symbol resolution writes the
diagnostic, releases the handle and exits with code 1, while a completed run
calls `Py_Main` with the full argument vector, propagates its return value as
the exit code, and releases the handle afterward (last event of the trace). -/
theorem stubB_handle_once (env : EnvB) (p : String)
    (hp : env.realpathExe = some p) (hload : env.dlopenOk = true) :
    ((runStubB env).events.countP isDlopenEvent = 1) ∧
    ((runStubB env).events.countP isDlcloseEvent = 1) ∧
    (env.dlsymOk = false →
      (runStubB env).exitCode = 1 ∧
      (runStubB env).events =
        [EventB.setenvCall "PYTHONHOME" (stripAfterLastSlash (frameworkPathOf p)),
         EventB.dlopenCall (frameworkPathOf p),
         EventB.stderrMsg ("Failed to find Py_Main: " ++ env.dlerrorSym ++ "\n"),
         EventB.dlcloseCall]) ∧
    (env.dlsymOk = true →
      (runStubB env).exitCode = env.pyMainResult ∧
      (runStubB env).events =
        [EventB.setenvCall "PYTHONHOME" (stripAfterLastSlash (frameworkPathOf p)),
         EventB.dlopenCall (frameworkPathOf p),
         EventB.pyMainCall env.argv,
         EventB.dlcloseCall]) := by
  cases hsym : env.dlsymOk
  · have hres : runStubB env =
        ⟨[EventB.setenvCall "PYTHONHOME" (stripAfterLastSlash (frameworkPathOf p)),
          EventB.dlopenCall (frameworkPathOf p),
          EventB.stderrMsg ("Failed to find Py_Main: " ++ env.dlerrorSym ++ "\n"),
          EventB.dlcloseCall], 1⟩ := by
      simp [runStubB, hp, hload, hsym]
    rw [hres]
    refine ⟨?_, ?_, fun _ => ⟨rfl, rfl⟩, fun hc => ?_⟩
    · simp [List.countP_cons, isDlopenEvent]
    · simp [List.countP_cons, isDlcloseEvent]
    · exact absurd hc (by decide)
  · have hres : runStubB env =
        ⟨[EventB.setenvCall "PYTHONHOME" (stripAfterLastSlash (frameworkPathOf p)),
          EventB.dlopenCall (frameworkPathOf p),
          EventB.pyMainCall env.argv,
          EventB.dlcloseCall], env.pyMainResult⟩ := by
      simp [runStubB, hp, hload, hsym]
    rw [hres]
    refine ⟨?_, ?_, fun hc => ?_, fun _ => ⟨rfl, rfl⟩⟩
    · simp [List.countP_cons, isDlopenEvent]
    · simp [List.countP_cons, isDlcloseEvent]
    · exact absurd hc (by decide)

/-- C2 witness: the released-exactly-once property evaluated at the concrete
well-formed invocation `envB_ok`. -/
theorem stubB_handle_once_witness :
    ((runStubB envB_ok).events.countP isDlopenEvent = 1) ∧
    ((runStubB envB_ok).events.countP isDlcloseEvent = 1) ∧
    (envB_ok.dlsymOk = false →
      (runStubB envB_ok).exitCode = 1 ∧
      (runStubB envB_ok).events =
        [EventB.setenvCall "PYTHONHOME"
           (stripAfterLastSlash (frameworkPathOf "/Apps/MarcutApp.app/Contents/Resources/python3")),
         EventB.dlopenCall (frameworkPathOf "/Apps/MarcutApp.app/Contents/Resources/python3"),
         EventB.stderrMsg ("Failed to find Py_Main: " ++ envB_ok.dlerrorSym ++ "\n"),
         EventB.dlcloseCall]) ∧
    (envB_ok.dlsymOk = true →
      (runStubB envB_ok).exitCode = envB_ok.pyMainResult ∧
      (runStubB envB_ok).events =
        [EventB.setenvCall "PYTHONHOME"
           (stripAfterLastSlash (frameworkPathOf "/Apps/MarcutApp.app/Contents/Resources/python3")),
         EventB.dlopenCall (frameworkPathOf "/Apps/MarcutApp.app/Contents/Resources/python3"),
         EventB.pyMainCall envB_ok.argv,
         EventB.dlcloseCall]) :=
  stubB_handle_once envB_ok "/Apps/MarcutApp.app/Contents/Resources/python3" rfl rfl

/-- C9: when the executable path resolves and contains a path separator
(`splitLast` finds a last `/`), the shared-library path is the executable's
directory joined with the fixed relative offset
`../Frameworks/Python.framework/Versions/3.11/Python`, the `PYTHONHOME`
environment variable is set to that library path's parent directory, and the
export happens before the load (first two trace events, in that order). -/
theorem stubB_framework_path (env : EnvB) (p : String) (b a : List Char)
    (hp : env.realpathExe = some p) (hsp : splitLast '/' p.data = some (b, a)) :
    frameworkPathOf p = String.mk b ++ frameworkOffset ∧
    stripAfterLastSlash (frameworkPathOf p) =
      String.mk b ++ "/../Frameworks/Python.framework/Versions/3.11" ∧
    ∃ rest, (runStubB env).events =
      EventB.setenvCall "PYTHONHOME"
          (String.mk b ++ "/../Frameworks/Python.framework/Versions/3.11") ::
        EventB.dlopenCall (String.mk b ++ frameworkOffset) :: rest := by
  have hfp : frameworkPathOf p = String.mk b ++ frameworkOffset := by
    simp [frameworkPathOf, hsp]
  have hhome : stripAfterLastSlash (frameworkPathOf p) =
      String.mk b ++ "/../Frameworks/Python.framework/Versions/3.11" := by
    rw [hfp]; exact stripAfterLastSlash_mk_append_offset b
  refine ⟨hfp, hhome, ?_⟩
  simp only [runStubB, hp, hfp, stripAfterLastSlash_mk_append_offset]
  cases env.dlopenOk <;> cases env.dlsymOk <;> simp

/-- C9 witness: the framework-path and `PYTHONHOME` derivation evaluated at
the concrete well-formed invocation `envB_ok`. -/
theorem stubB_framework_path_witness :
    frameworkPathOf "/Apps/MarcutApp.app/Contents/Resources/python3" =
      String.mk ("/Apps/MarcutApp.app/Contents/Resources" : String).data ++ frameworkOffset ∧
    stripAfterLastSlash (frameworkPathOf "/Apps/MarcutApp.app/Contents/Resources/python3") =
      String.mk ("/Apps/MarcutApp.app/Contents/Resources" : String).data ++
        "/../Frameworks/Python.framework/Versions/3.11" ∧
    ∃ rest, (runStubB envB_ok).events =
      EventB.setenvCall "PYTHONHOME"
          (String.mk ("/Apps/MarcutApp.app/Contents/Resources" : String).data ++
            "/../Frameworks/Python.framework/Versions/3.11") ::
        EventB.dlopenCall
          (String.mk ("/Apps/MarcutApp.app/Contents/Resources" : String).data ++
            frameworkOffset) :: rest :=
  stubB_framework_path envB_ok "/Apps/MarcutApp.app/Contents/Resources/python3"
    ("/Apps/MarcutApp.app/Contents/Resources" : String).data
    ("python3" : String).data rfl (by decide)

/- ## Claim theorems for the pure path builders of variant A -/

theorem string_append_assoc (a b c : String) : a ++ b ++ c = a ++ (b ++ c) := by
  cases a; cases b; cases c
  simp only [← string_mk_append, List.append_assoc]

/-- C3: for every contents directory, runtime home and version string, the
search path the launcher builds is the `:`-joined list whose entries are the
bundled site directory, the runtime standard-library directory and the
lib-dynload directory, in exactly that order; the equation holds for all
inputs, so the order never depends on the paths' lengths or contents. -/
theorem searchPath_join_order (contents_dir python_home python_version : String) :
    buildSearchPath contents_dir python_home python_version =
      joinWithColon (searchPathEntries contents_dir python_home python_version) := by
  have h1 : ("/Resources/python_site:" : String) = "/Resources/python_site" ++ ":" := rfl
  simp only [buildSearchPath, searchPathEntries, joinWithColon, h1, string_append_assoc]

/-- C6: whenever the symlink-resolved runtime home contains a path separator
(true of every `realpath` result), the version token the launcher uses is the
home's final path segment, with the fixed default `"3.10"` substituted
exactly when that extraction yields the empty string. -/
theorem runtimeVersion_from_home (python_home : String)
    (h : '/' ∈ python_home.data) :
    extractVersion python_home =
      (if finalPathSegment python_home = "" then "3.10"
       else finalPathSegment python_home) := by
  rcases splitLast_isSome_of_mem '/' h with ⟨b, a, hba⟩
  simp only [extractVersion, finalPathSegment, hba]
  by_cases ha : a = ([] : List Char)
  · subst ha
    have hmk : String.mk ([] : List Char) = "" := rfl
    simp [hmk]
  · have hne : String.mk a ≠ "" := by
      intro hmk
      exact ha (by simpa using congrArg String.data hmk)
    simp [ha, hne]

/-- C6 witness: the version extraction evaluated at a concrete resolved home. -/
theorem runtimeVersion_from_home_witness :
    extractVersion "/Frameworks/Python.framework/Versions/3.12" =
      (if finalPathSegment "/Frameworks/Python.framework/Versions/3.12" = "" then "3.10"
       else finalPathSegment "/Frameworks/Python.framework/Versions/3.12") :=
  runtimeVersion_from_home "/Frameworks/Python.framework/Versions/3.12" (by decide)

/- ## Inversion of variant A's initialization paths -/

/-- The configuration value variant A hands to `Py_InitializeFromConfig` when
the executable path is `p` and the resolved runtime home is `home`. -/
def assembledConfig (env : EnvA) (p home : String) : PyConfig :=
  { isolated := 1, use_environment := 0, user_site_directory := 0,
    write_bytecode := 0, configure_c_stdio := 0, buffered_stdio := 0,
    program_name := some (home ++ "/bin/python3"),
    home := some home,
    pythonpath_env := some (buildSearchPath (dirnameOf (dirnameOf p)) home
      (extractVersion home)),
    argv := some env.argv }

/-- Inversion: an `initFromConfig` event in variant A's trace can only arise
on the two post-assembly paths, with the fully assembled configuration, and
pins down the whole trace. -/
theorem runStubA_init_inversion (env : EnvA) (cfg : PyConfig)
    (h : Event.initFromConfig cfg ∈ (runStubA env).events) :
    ∃ p home, env.execPath = some p ∧
      env.realpathOf (homeLinkOf p) = some home ∧
      env.accessReadOk (sitePathOf p) = true ∧
      cfg = assembledConfig env p home ∧
      ((env.stInit = true ∧
          runStubA env = ⟨[Event.configInit, Event.initFromConfig cfg, Event.configClear,
            Event.exitStatusException], Outcome.statusExit⟩) ∨
       (env.stInit = false ∧
          runStubA env = ⟨[Event.configInit, Event.initFromConfig cfg, Event.configClear,
            Event.runMain], Outcome.ret env.runMainResult⟩)) := by
  rcases hexe : env.execPath with _ | p
  · simp only [runStubA, hexe] at h
    simp at h
  · rcases hrp : env.realpathOf (homeLinkOf p) with _ | home
    · simp only [runStubA, hexe, hrp] at h
      simp at h
    · rcases hacc : env.accessReadOk (sitePathOf p)
      · simp only [runStubA, hexe, hrp, hacc] at h
        simp at h
      · rcases hsp : env.stProgram
        · rcases hsh : env.stHome
          · rcases hspa : env.stPath
            · rcases hsa : env.stArgv
              · rcases hsi : env.stInit
                · simp only [runStubA, hexe, hrp, hacc, hsp, hsh, hspa, hsa, hsi,
                    handle_status] at h
                  simp at h
                  refine ⟨p, home, rfl, hrp, hacc, ?_, Or.inr ⟨rfl, ?_⟩⟩
                  · rw [h]; rfl
                  · simp only [runStubA, hexe, hrp, hacc, hsp, hsh, hspa, hsa, hsi,
                      handle_status]
                    rw [h]
                    simp [initPythonConfig, assembledConfig]
                · simp only [runStubA, hexe, hrp, hacc, hsp, hsh, hspa, hsa, hsi,
                    handle_status] at h
                  simp at h
                  refine ⟨p, home, rfl, hrp, hacc, ?_, Or.inl ⟨rfl, ?_⟩⟩
                  · rw [h]; rfl
                  · simp only [runStubA, hexe, hrp, hacc, hsp, hsh, hspa, hsa, hsi,
                      handle_status]
                    rw [h]
                    simp [initPythonConfig, assembledConfig]
              · simp only [runStubA, hexe, hrp, hacc, hsp, hsh, hspa, hsa,
                  handle_status] at h
                simp at h
            · simp only [runStubA, hexe, hrp, hacc, hsp, hsh, hspa,
                handle_status] at h
              simp at h
          · simp only [runStubA, hexe, hrp, hacc, hsp, hsh, handle_status] at h
            simp at h
        · simp only [runStubA, hexe, hrp, hacc, hsp, handle_status] at h
          simp at h

/-- Recognizer for configuration-release events, for counting releases. -/
def isClearEvent : Event → Bool
  | Event.configClear => true
  | _ => false

/- ## Concrete variant-A environments used by the witnesses -/

/-- A well-formed variant-A invocation: the executable path resolves, the
`Versions/Current` symlink resolves to a `3.10` home, the bundled site
directory is readable, and every runtime status is a success. -/
def envA_ok : EnvA :=
  { execPath := some "/Apps/MarcutApp.app/Contents/MacOS/python3_embed",
    realpathOf := fun _ =>
      some "/Apps/MarcutApp.app/Contents/Frameworks/Python.framework/Versions/3.10",
    accessReadOk := fun _ => true,
    stProgram := false, stHome := false, stPath := false, stArgv := false,
    stInit := false, runMainResult := 0,
    argv := ["python3_embed", "script.py"] }

/-- A variant-A invocation whose `_NSGetExecutablePath` fails. -/
def envA_noExec : EnvA :=
  { execPath := none, realpathOf := fun _ => none, accessReadOk := fun _ => false,
    stProgram := false, stHome := false, stPath := false, stArgv := false,
    stInit := false, runMainResult := 0, argv := [] }

/- ## Claim theorems for variant A -/

/-- C4: each local precondition failure — unresolvable executable path,
unresolvable `Versions/Current` runtime-home chain, missing/unreadable
bundled site directory — writes its stage-identifying message to standard
error as the sole trace event and returns exit code 1, before any runtime
configuration object has been constructed (no `configInit` in the trace). -/
theorem stubA_precondition_failures (env : EnvA) :
    (env.execPath = none →
      runStubA env =
        ⟨[Event.stderrMsg "python3_embed: Failed to get executable path\n"],
          Outcome.ret 1⟩ ∧
      Event.configInit ∉ (runStubA env).events) ∧
    (∀ p, env.execPath = some p → env.realpathOf (homeLinkOf p) = none →
      runStubA env =
        ⟨[Event.stderrMsg ("python3_embed: Unable to resolve Python home at " ++
            homeLinkOf p ++ "\n")], Outcome.ret 1⟩ ∧
      Event.configInit ∉ (runStubA env).events) ∧
    (∀ p home, env.execPath = some p →
      env.realpathOf (homeLinkOf p) = some home →
      env.accessReadOk (sitePathOf p) = false →
      runStubA env =
        ⟨[Event.stderrMsg ("python3_embed: python_site not found at " ++
            sitePathOf p ++ "\n")], Outcome.ret 1⟩ ∧
      Event.configInit ∉ (runStubA env).events) := by
  refine ⟨fun h0 => ?_, fun p hp hr => ?_, fun p home hp hr hacc => ?_⟩
  · have hrun : runStubA env =
        ⟨[Event.stderrMsg "python3_embed: Failed to get executable path\n"],
          Outcome.ret 1⟩ := by
      simp [runStubA, h0]
    exact ⟨hrun, by rw [hrun]; simp⟩
  · have hrun : runStubA env =
        ⟨[Event.stderrMsg ("python3_embed: Unable to resolve Python home at " ++
            homeLinkOf p ++ "\n")], Outcome.ret 1⟩ := by
      simp [runStubA, hp, hr]
    exact ⟨hrun, by rw [hrun]; simp⟩
  · have hrun : runStubA env =
        ⟨[Event.stderrMsg ("python3_embed: python_site not found at " ++
            sitePathOf p ++ "\n")], Outcome.ret 1⟩ := by
      simp [runStubA, hp, hr, hacc]
    exact ⟨hrun, by rw [hrun]; simp⟩

/-- C4 witness: the executable-path precondition failure at the concrete
invocation `envA_noExec`. -/
theorem stubA_precondition_failures_witness :
    runStubA envA_noExec =
      ⟨[Event.stderrMsg "python3_embed: Failed to get executable path\n"],
        Outcome.ret 1⟩ ∧
    Event.configInit ∉ (runStubA envA_noExec).events :=
  (stubA_precondition_failures envA_noExec).1 rfl

/-- C5: every configuration handed to initialization carries the process
argument vector unchanged — same entries, same order, same count. -/
theorem stubA_argv_forwarded (env : EnvA) (cfg : PyConfig)
    (h : Event.initFromConfig cfg ∈ (runStubA env).events) :
    cfg.argv = some env.argv := by
  rcases runStubA_init_inversion env cfg h with ⟨p, home, _, _, _, hcfg, _⟩
  rw [hcfg]
  rfl

/-- C5 witness: the assembled configuration of the concrete well-formed
invocation `envA_ok` carries its argument vector verbatim. -/
theorem stubA_argv_forwarded_witness :
    (Event.initFromConfig (assembledConfig envA_ok
        "/Apps/MarcutApp.app/Contents/MacOS/python3_embed"
        "/Apps/MarcutApp.app/Contents/Frameworks/Python.framework/Versions/3.10") ∈
      (runStubA envA_ok).events) ∧
    (assembledConfig envA_ok
        "/Apps/MarcutApp.app/Contents/MacOS/python3_embed"
        "/Apps/MarcutApp.app/Contents/Frameworks/Python.framework/Versions/3.10").argv =
      some envA_ok.argv :=
  have h : Event.initFromConfig (assembledConfig envA_ok
      "/Apps/MarcutApp.app/Contents/MacOS/python3_embed"
      "/Apps/MarcutApp.app/Contents/Frameworks/Python.framework/Versions/3.10") ∈
      (runStubA envA_ok).events := by decide
  ⟨h, stubA_argv_forwarded envA_ok _ h⟩

/-- C7: every configuration handed to initialization has all isolation flags
set: environment inheritance, user site customization, bytecode-cache writes,
stdio configuration and stdio buffering disabled (and isolated mode on). -/
theorem stubA_isolation_flags (env : EnvA) (cfg : PyConfig)
    (h : Event.initFromConfig cfg ∈ (runStubA env).events) :
    cfg.use_environment = 0 ∧ cfg.user_site_directory = 0 ∧
    cfg.write_bytecode = 0 ∧ cfg.configure_c_stdio = 0 ∧
    cfg.buffered_stdio = 0 ∧ cfg.isolated = 1 := by
  rcases runStubA_init_inversion env cfg h with ⟨p, home, _, _, _, hcfg, _⟩
  rw [hcfg]
  exact ⟨rfl, rfl, rfl, rfl, rfl, rfl⟩

/-- C7 witness: the isolation flags of the configuration assembled by the
concrete well-formed invocation `envA_ok`. -/
theorem stubA_isolation_flags_witness :
    (assembledConfig envA_ok
        "/Apps/MarcutApp.app/Contents/MacOS/python3_embed"
        "/Apps/MarcutApp.app/Contents/Frameworks/Python.framework/Versions/3.10").use_environment = 0 ∧
    (assembledConfig envA_ok
        "/Apps/MarcutApp.app/Contents/MacOS/python3_embed"
        "/Apps/MarcutApp.app/Contents/Frameworks/Python.framework/Versions/3.10").user_site_directory = 0 ∧
    (assembledConfig envA_ok
        "/Apps/MarcutApp.app/Contents/MacOS/python3_embed"
        "/Apps/MarcutApp.app/Contents/Frameworks/Python.framework/Versions/3.10").write_bytecode = 0 ∧
    (assembledConfig envA_ok
        "/Apps/MarcutApp.app/Contents/MacOS/python3_embed"
        "/Apps/MarcutApp.app/Contents/Frameworks/Python.framework/Versions/3.10").configure_c_stdio = 0 ∧
    (assembledConfig envA_ok
        "/Apps/MarcutApp.app/Contents/MacOS/python3_embed"
        "/Apps/MarcutApp.app/Contents/Frameworks/Python.framework/Versions/3.10").buffered_stdio = 0 ∧
    (assembledConfig envA_ok
        "/Apps/MarcutApp.app/Contents/MacOS/python3_embed"
        "/Apps/MarcutApp.app/Contents/Frameworks/Python.framework/Versions/3.10").isolated = 1 :=
  stubA_isolation_flags envA_ok _ (by decide)

/-- C10: the program name placed in every configuration handed to
initialization is the resolved runtime home joined with `/bin/python3`. -/
theorem stubA_program_name (env : EnvA) (cfg : PyConfig)
    (h : Event.initFromConfig cfg ∈ (runStubA env).events) :
    ∃ p home, env.execPath = some p ∧
      env.realpathOf (homeLinkOf p) = some home ∧
      cfg.program_name = some (home ++ "/bin/python3") := by
  rcases runStubA_init_inversion env cfg h with ⟨p, home, hexe, hrp, _, hcfg, _⟩
  refine ⟨p, home, hexe, hrp, ?_⟩
  rw [hcfg]
  rfl

/-- C10 witness: the program name of the configuration assembled by the
concrete well-formed invocation `envA_ok`. -/
theorem stubA_program_name_witness :
    ∃ p home, envA_ok.execPath = some p ∧
      envA_ok.realpathOf (homeLinkOf p) = some home ∧
      (assembledConfig envA_ok
          "/Apps/MarcutApp.app/Contents/MacOS/python3_embed"
          "/Apps/MarcutApp.app/Contents/Frameworks/Python.framework/Versions/3.10").program_name =
        some (home ++ "/bin/python3") :=
  stubA_program_name envA_ok _ (by decide)

/-- C8: on every path past the configuration's consumption by the
initialization call, the configuration is cleared exactly once; the status
handler contributes no message of its own (no stderr event on those paths)
and, when the status is an exception and a configuration is passed, first
clears it and then terminates through `Py_ExitStatusException`; when the
runtime reports an initialization failure the process ends in
`Py_ExitStatusException` as the final trace event. -/
theorem stubA_config_cleared_once (env : EnvA)
    (h : ∃ cfg, Event.initFromConfig cfg ∈ (runStubA env).events) :
    ((runStubA env).events.countP isClearEvent = 1) ∧
    (∀ m, Event.stderrMsg m ∉ (runStubA env).events) ∧
    (handle_status true = [Event.configClear, Event.exitStatusException]) ∧
    (env.stInit = true →
      (runStubA env).outcome = Outcome.statusExit ∧
      (runStubA env).events.getLast? = some Event.exitStatusException) := by
  rcases h with ⟨cfg, h⟩
  rcases runStubA_init_inversion env cfg h with ⟨p, home, _, _, _, _, hcase⟩
  rcases hcase with ⟨hsi, hrun⟩ | ⟨hsi, hrun⟩ <;> rw [hrun]
  · refine ⟨?_, ?_, rfl, fun _ => ⟨rfl, rfl⟩⟩
    · simp [List.countP_cons, isClearEvent]
    · intro m; simp
  · refine ⟨?_, ?_, rfl, fun hc => ?_⟩
    · simp [List.countP_cons, isClearEvent]
    · intro m; simp
    · simp [hc] at hsi

/-- C8 witness: the clear-exactly-once property evaluated at the concrete
well-formed invocation `envA_ok`. -/
theorem stubA_config_cleared_once_witness :
    ((runStubA envA_ok).events.countP isClearEvent = 1) ∧
    (∀ m, Event.stderrMsg m ∉ (runStubA envA_ok).events) ∧
    (handle_status true = [Event.configClear, Event.exitStatusException]) ∧
    (envA_ok.stInit = true →
      (runStubA envA_ok).outcome = Outcome.statusExit ∧
      (runStubA envA_ok).events.getLast? = some Event.exitStatusException) :=
  stubA_config_cleared_once envA_ok
    ⟨assembledConfig envA_ok
        "/Apps/MarcutApp.app/Contents/MacOS/python3_embed"
        "/Apps/MarcutApp.app/Contents/Frameworks/Python.framework/Versions/3.10",
      by decide⟩
